import Mathlib

/-!
Verification of the authentication core of the Hackathon-Project backend
(`app/services/auth_service.py`, `app/services/user_service.py`,
`app/crud/user_crud.py`) against its natural-language specification.

The service and repository layers under `src/app` are embedded shallowly:
Python coroutines become pure functions threading an explicit state,
fallible operations return `Except`, UUIDs and datetimes become `Nat`
(str() on a UUID is injective, so id comparison via strings in the source
is modelled as id equality). Components of the repository that are not in
the provided sources (`app/core/security.py`, `app/core/exceptions.py`,
`app/core/exception_utils.py`, `app/services/rate_limit_service.py`)
are modelled from the specification; each such definition carries a doc
comment saying so.
-/

namespace HackathonAuth

/-- Error taxonomy. The named constructors model the application exception
classes from `app/core/exceptions.py` (module not in the provided sources;
the taxonomy and default messages are modelled from the spec, section 7).
`attributeErrorNoneHasNoId` models the raw Python `AttributeError` raised
when an attribute is read off `None`; `rawStorageFault` models a raw
storage-layer exception escaping unwrapped. -/
inductive AppError where
  | invalidCredentials (detail : String)
  | invalidToken
  | tokenExpired
  | tokenRevoked
  | resourceNotFound (detail : String)
  | notAuthorized (detail : String)
  | validationError (detail : String)
  | internalServerError (detail : String)
  | attributeErrorNoneHasNoId
  | rawStorageFault
deriving DecidableEq, Repr

/-- Modelled from the spec: the generic detail message carried by an
`InvalidCredentials()` raised with no explicit detail (the class lives in
`app/core/exceptions.py`, not in the provided sources; the spec only says
it is a generic message that never reveals whether the account exists). -/
def INVALID_CREDENTIALS_DETAIL : String := "Invalid email or password provided."

/-- Modelled from the spec (4.1): a self-describing password hash, with the
algorithm cost parameters embedded. The hash is abstracted so that
verification succeeds exactly on the original plaintext. -/
structure HashedPassword where
  plain : String
  cost : Nat
deriving DecidableEq, Repr

/-- Modelled from the spec (6): the configured password-hash target cost. -/
def HASH_TARGET_COST : Nat := 12

namespace PasswordManager

/-- Modelled from the spec (4.1): `hash_password` produces a hash at the
currently configured target cost. -/
def hash_password (plaintext : String) : HashedPassword :=
  { plain := plaintext, cost := HASH_TARGET_COST }

/-- Modelled from the spec (4.1): `verify_password` returns true exactly
when the plaintext matches the hash. -/
def verify_password (plaintext : String) (h : HashedPassword) : Bool :=
  plaintext == h.plain

/-- Modelled from the spec (4.1): `upgrade_hash_if_needed` returns true iff
the stored hash's embedded cost is weaker than the configured target. -/
def upgrade_hash_if_needed (_plaintext : String) (h : HashedPassword) : Bool :=
  decide (h.cost < HASH_TARGET_COST)

end PasswordManager

/-- The `User` table model from `app/models/user_model.py`. UUIDs and
timestamps are `Nat`; `tokens_valid_from_utc` is nullable. -/
structure User where
  id : Nat
  email : String
  hashed_password : HashedPassword
  created_at : Nat
  updated_at : Nat
  tokens_valid_from_utc : Option Nat
deriving DecidableEq, Repr

/-- Token type, from `TokenType` in `app/core/security.py` (modelled from
the spec, section 3: `type` ranges over ACCESS and REFRESH). -/
inductive TokenType where
  | access
  | refresh
deriving DecidableEq, Repr

/-- Modelled from the spec (3, 4.2): a signed token together with its
embedded claims. `wellSigned` abstracts signature validity (a token the
process issued verifies; a malformed or tampered string does not). -/
structure Token where
  subject : Nat
  type : TokenType
  issued_at : Nat
  expires_at : Nat
  token_id : Nat
  wellSigned : Bool
deriving DecidableEq, Repr

/-- Embeds `TokenResponse` from `app/schemas/token_schema.py` (module not in the
provided sources; modelled from the spec, section 3: a pair of access and
refresh token strings). -/
structure TokenResponse where
  access_token : Token
  refresh_token : Token
deriving DecidableEq, Repr

/-- Modelled from the spec (4.2/6): configured access-token lifetime. -/
def ACCESS_TOKEN_LIFETIME : Nat := 15

/-- Modelled from the spec (4.2/6): configured refresh-token lifetime. -/
def REFRESH_TOKEN_LIFETIME : Nat := 10080

/-- Modelled from the spec (4.3/6): the failed-attempt lockout threshold. -/
def RATE_LIMIT_THRESHOLD : Nat := 5

/-- The mutable world the authentication flows touch: the user table, the
revocation (blacklist) store, the per-client failed-attempt counters, the
clock, a token-id source, and two fault-injection flags: `revokeWriteOk`
models whether a revocation-store write can be confirmed (spec 4.2:
`revoke_token` returns false when it cannot), and `commitOk` models whether
the direct `db.commit()` at `auth_service.py` line 83 succeeds. -/
structure SysState where
  users : List User
  revoked : List Nat
  counters : List (String × Nat)
  now : Nat
  nextTokenId : Nat
  revokeWriteOk : Bool
  commitOk : Bool
deriving DecidableEq, Repr

/-- Failed-attempt count for a client identifier (0 when no counter). -/
def counterOf (cs : List (String × Nat)) (client : String) : Nat :=
  match cs.find? (fun p => p.fst == client) with
  | some p => p.snd
  | none => 0

/-- Atomic increment of a client's failed-attempt counter: create at 1 on
first failure, bump otherwise (spec 4.3). -/
def incrCounter : List (String × Nat) → String → List (String × Nat)
  | [], client => [(client, 1)]
  | p :: ps, client =>
    if p.fst == client then (p.fst, p.snd + 1) :: ps
    else p :: incrCounter ps client

/-- Delete a client's counter (spec 4.3: reset on success). -/
def eraseCounter (cs : List (String × Nat)) (client : String) :
    List (String × Nat) :=
  cs.filter (fun p => p.fst != client)

namespace RateLimitService

/-- Modelled from the spec (4.3): true iff the failure counter has reached
or exceeded the configured threshold within the current window. -/
def is_auth_rate_limited (s : SysState) (client : String) : Bool :=
  decide (RATE_LIMIT_THRESHOLD ≤ counterOf s.counters client)

/-- Modelled from the spec (4.3): atomically increments the counter. -/
def record_failed_auth_attempt (s : SysState) (client : String) : SysState :=
  { s with counters := incrCounter s.counters client }

/-- Modelled from the spec (4.3): deletes the counter. -/
def clear_failed_auth_attempts (s : SysState) (client : String) : SysState :=
  { s with counters := eraseCounter s.counters client }

end RateLimitService

/-- Look up a user by primary key, as `UserRepository.get` does with
`select(User).where(User.id == obj_id)`. -/
def findById (users : List User) (obj_id : Nat) : Option User :=
  users.find? (fun u => u.id == obj_id)

/-- Lower-case an ASCII character (`str.lower` restricted to the ASCII
range, which covers the emails in play). -/
def lowerChar (c : Char) : Char :=
  if 65 ≤ c.toNat ∧ c.toNat ≤ 90 then Char.ofNat (c.toNat + 32) else c

/-- Lower-case a string, modelling `str.lower` / SQL `func.lower`. -/
def lowerStr (s : String) : String := String.mk (s.data.map lowerChar)

/-- Look up a user by case-insensitive email, as `UserRepository.get_by_email`
does with `func.lower(User.email) == email.lower()`. -/
def findByEmail (users : List User) (email : String) : Option User :=
  users.find? (fun u => lowerStr u.email == lowerStr email)

namespace TokenManager

/-- Modelled from the spec (4.2): `create_token` embeds subject, type, a
unique token id, `issued_at = now` and `expires_at = now + lifetime`. -/
def create_token (s : SysState) (subject : Nat) (token_type : TokenType) :
    Token × SysState :=
  let lifetime :=
    match token_type with
    | TokenType.access => ACCESS_TOKEN_LIFETIME
    | TokenType.refresh => REFRESH_TOKEN_LIFETIME
  ({ subject := subject, type := token_type, issued_at := s.now,
     expires_at := s.now + lifetime, token_id := s.nextTokenId,
     wellSigned := true },
   { s with nextTokenId := s.nextTokenId + 1 })

/-- Modelled from the spec (4.2): `verify_token` runs five ordered checks:
signature, expiry, expected type, revocation-store membership, and the
subject's `tokens_valid_from_utc` cutoff (skipped when the subject has no
user record, since there is then no cutoff to read). -/
def verify_token (s : SysState) (tok : Token) (expected : TokenType) :
    Except AppError Token :=
  if tok.wellSigned = false then Except.error AppError.invalidToken
  else if tok.expires_at ≤ s.now then Except.error AppError.tokenExpired
  else if tok.type ≠ expected then Except.error AppError.invalidToken
  else if s.revoked.contains tok.token_id then Except.error AppError.tokenRevoked
  else
    match findById s.users tok.subject with
    | some u =>
      match u.tokens_valid_from_utc with
      | some cutoff =>
        if tok.issued_at < cutoff then Except.error AppError.tokenRevoked
        else Except.ok tok
      | none => Except.ok tok
    | none => Except.ok tok

/-- Modelled from the spec (4.2): `revoke_token` checks that the token is
well-formed, writes a revocation record keyed by `token_id`, and returns
true on success, false when the write could not be confirmed. -/
def revoke_token (s : SysState) (tok : Token) : Bool × SysState :=
  if tok.wellSigned = false then (false, s)
  else if s.revokeWriteOk then
    (true, { s with revoked := tok.token_id :: s.revoked })
  else (false, s)

end TokenManager

namespace AuthService

/-- Embeds `AuthService.create_token_pair` (`auth_service.py` lines 40-51): an
access token then a refresh token for the user's id. -/
def create_token_pair (s : SysState) (user : User) :
    TokenResponse × SysState :=
  let (access, s1) := TokenManager.create_token s user.id TokenType.access
  let (refresh, s2) := TokenManager.create_token s1 user.id TokenType.refresh
  ({ access_token := access, refresh_token := refresh }, s2)

/-- Embeds `AuthService.login` (`auth_service.py` lines 53-90).
Order is the source's: rate-limit gate; `get_by_email`;
`password_is_valid = user and verify_password(...)`; on failure record the
attempt and raise the default `InvalidCredentials()`; on success clear the
counter, then, when the hash needs an upgrade, set the new hash and
`db.commit()` with no exception handler (a commit fault propagates raw);
finally issue the pair. -/
def login (s : SysState) (email password client_ip : String) :
    Except AppError TokenResponse × SysState :=
  if RateLimitService.is_auth_rate_limited s client_ip then
    (Except.error (AppError.invalidCredentials
      "Too many failed login attempts. Please try again later."), s)
  else
    match findByEmail s.users email with
    | none =>
      (Except.error (AppError.invalidCredentials INVALID_CREDENTIALS_DETAIL),
       RateLimitService.record_failed_auth_attempt s client_ip)
    | some user =>
      if PasswordManager.verify_password password user.hashed_password = false then
        (Except.error (AppError.invalidCredentials INVALID_CREDENTIALS_DETAIL),
         RateLimitService.record_failed_auth_attempt s client_ip)
      else
        let s1 := RateLimitService.clear_failed_auth_attempts s client_ip
        if PasswordManager.upgrade_hash_if_needed password user.hashed_password then
          if s1.commitOk then
            let upgraded := { user with
              hashed_password := PasswordManager.hash_password password }
            let persisted :=
              s1.users.map (fun v => if v.id == user.id then upgraded else v)
            let s2 := { s1 with users := persisted }
            ((Except.ok (create_token_pair s2 upgraded).fst : Except AppError TokenResponse),
             (create_token_pair s2 upgraded).snd)
          else
            (Except.error AppError.rawStorageFault, s1)
        else
          ((Except.ok (create_token_pair s1 user).fst : Except AppError TokenResponse),
           (create_token_pair s1 user).snd)

/-- Embeds `AuthService.refresh_token` (`auth_service.py` lines 92-122).
Order is the source's: verify the presented token (propagating failures);
fetch the user by the subject id with no None check; revoke the old token,
raising `InternalServerError` when not confirmed; issue the new pair —
which, when the user lookup returned `None`, evaluates `str(user.id)` on
`None` and raises a raw `AttributeError`. -/
def refresh_token (s : SysState) (tok : Token) :
    Except AppError TokenResponse × SysState :=
  match TokenManager.verify_token s tok TokenType.refresh with
  | Except.error e => (Except.error e, s)
  | Except.ok payload =>
    let userOpt := findById s.users payload.subject
    let rv := TokenManager.revoke_token s tok
    if rv.fst = false then
      (Except.error (AppError.internalServerError
        "Could not refresh token. Please try logging in again."), rv.snd)
    else
      match userOpt with
      | none => (Except.error AppError.attributeErrorNoneHasNoId, rv.snd)
      | some user =>
        ((Except.ok (create_token_pair rv.snd user).fst : Except AppError TokenResponse),
         (create_token_pair rv.snd user).snd)

end AuthService

/-- A raw fault of the underlying storage backend (the kind of exception
SQLAlchemy raises), before any boundary wrapping. -/
inductive StorageFault where
  | fault
deriving DecidableEq, Repr

/-- The database as the repository layer sees it: the user table plus a
fault-injection flag — when `faulty` is true the next storage call raises
a raw backend exception. -/
structure Db where
  users : List User
  faulty : Bool
deriving DecidableEq, Repr

/-- Modelled from the spec (6/9): the `handle_exceptions` decorator from
`app/core/exception_utils.py` (module not in the provided sources), applied
with `default_exception=InternalServerError` and the message
"An unexpected database error occurred.": any underlying storage fault is
re-raised as that single generic internal error. -/
def handle_exceptions {α : Type} (r : Except StorageFault α) :
    Except AppError α :=
  match r with
  | Except.ok a => Except.ok a
  | Except.error _ =>
    Except.error (AppError.internalServerError
      "An unexpected database error occurred.")

/-- Optional filters accepted by `UserRepository.count` (`user_crud.py`
`_apply_filters`): exact email match and a case-insensitive email search. -/
structure UserFilters where
  email : Option String
  search : Option String
deriving DecidableEq, Repr

/-- Whether the first character list is a prefix of the second. -/
def charsBeginWith : List Char → List Char → Bool
  | [], _ => true
  | _ :: _, [] => false
  | a :: as, b :: bs => a == b && charsBeginWith as bs

/-- Whether the first character list occurs contiguously in the second. -/
def charsContain (needle : List Char) : List Char → Bool
  | [] => needle.isEmpty
  | c :: cs => charsBeginWith needle (c :: cs) || charsContain needle cs

/-- Case-insensitive substring test, modelling SQL `ilike` with the search
term wrapped in percent signs. -/
def ilikeContains (haystack needle : String) : Bool :=
  charsContain (lowerStr needle).data (lowerStr haystack).data

/-- Embeds `UserRepository._apply_filters` (`user_crud.py` lines 167-185): an
email condition when `email` is present and non-empty, a search condition
when `search` is present and non-empty; conditions are conjoined. -/
def applyFilters (filters : UserFilters) (u : User) : Bool :=
  let emailOk :=
    match filters.email with
    | some e => if e ≠ "" then u.email == e else true
    | none => true
  let searchOk :=
    match filters.search with
    | some t => if t ≠ "" then ilikeContains u.email t else true
    | none => true
  emailOk && searchOk

/-- The typed counterpart of the `fields_to_update` dict accepted by
`UserRepository.update`: each field of the `User` model that the caller may
include. A `none` entry means the key is absent from the dict. -/
structure FieldsToUpdate where
  id : Option Nat
  email : Option String
  hashed_password : Option HashedPassword
  created_at : Option Nat
  updated_at : Option Nat
  tokens_valid_from_utc : Option (Option Nat)
deriving DecidableEq, Repr

/-- The empty `fields_to_update` dict. -/
def FieldsToUpdate.empty : FieldsToUpdate :=
  { id := none, email := none, hashed_password := none, created_at := none,
    updated_at := none, tokens_valid_from_utc := none }

/-- The `setattr` loop of `UserRepository.update` (`user_crud.py` lines
114-121): each field present in the dict overwrites the attribute, absent
fields are untouched. (The ISO-string coercion branch for `created_at` and
`updated_at` only fires on string values and is vacuous here, where
timestamps are already typed.) -/
def applyFields (u : User) (f : FieldsToUpdate) : User :=
  { id := f.id.getD u.id,
    email := f.email.getD u.email,
    hashed_password := f.hashed_password.getD u.hashed_password,
    created_at := f.created_at.getD u.created_at,
    updated_at := f.updated_at.getD u.updated_at,
    tokens_valid_from_utc := f.tokens_valid_from_utc.getD u.tokens_valid_from_utc }

namespace UserRepository

/-- Embeds `UserRepository.get` (`user_crud.py` lines 54-62), wrapped by
`handle_exceptions`. -/
def get (db : Db) (obj_id : Nat) : Except AppError (Option User) :=
  handle_exceptions
    (if db.faulty then Except.error StorageFault.fault
     else Except.ok (findById db.users obj_id))

/-- Embeds `UserRepository.get_by_email` (`user_crud.py` lines 64-74), wrapped by
`handle_exceptions`. -/
def get_by_email (db : Db) (email : String) : Except AppError (Option User) :=
  handle_exceptions
    (if db.faulty then Except.error StorageFault.fault
     else Except.ok (findByEmail db.users email))

/-- Embeds `UserRepository.count` (`user_crud.py` lines 76-90), wrapped by
`handle_exceptions`. -/
def count (db : Db) (filters : Option UserFilters) : Except AppError Nat :=
  handle_exceptions
    (if db.faulty then Except.error StorageFault.fault
     else
       Except.ok
         (match filters with
          | some f => (db.users.filter (applyFilters f)).length
          | none => db.users.length))

/-- Embeds `UserRepository.create` (`user_crud.py` lines 92-102), wrapped by
`handle_exceptions`: adds the pre-constructed object and returns it with
the updated table. -/
def create (db : Db) (db_obj : User) : Except AppError (User × Db) :=
  handle_exceptions
    (if db.faulty then Except.error StorageFault.fault
     else Except.ok (db_obj, { db with users := db.users ++ [db_obj] }))

/-- Embeds `UserRepository.update` (`user_crud.py` lines 104-130), wrapped by
`handle_exceptions`: applies the `setattr` loop and commits. -/
def update (db : Db) (user : User) (fields_to_update : FieldsToUpdate) :
    Except AppError (User × Db) :=
  handle_exceptions
    (if db.faulty then Except.error StorageFault.fault
     else
       let updated := applyFields user fields_to_update
       let table := db.users.map (fun v => if v.id == user.id then updated else v)
       Except.ok (updated, { db with users := table }))

/-- Embeds `UserRepository.delete` (`user_crud.py` lines 132-142), wrapped by
`handle_exceptions`: bulk delete by primary key, returns nothing. -/
def delete (db : Db) (obj_id : Nat) : Except AppError Db :=
  handle_exceptions
    (if db.faulty then Except.error StorageFault.fault
     else Except.ok { db with users := db.users.filter (fun u => u.id != obj_id) })

/-- Embeds `UserRepository.exists` (`user_crud.py` lines 145-153), wrapped by
`handle_exceptions`. (Named `existsById` here because `exists` is a Lean
keyword.) -/
def existsById (db : Db) (obj_id : Nat) : Except AppError Bool :=
  handle_exceptions
    (if db.faulty then Except.error StorageFault.fault
     else Except.ok (decide (0 < (db.users.filter (fun u => u.id == obj_id)).length)))

/-- Embeds `UserRepository.exists_by_email` (`user_crud.py` lines 155-165), wrapped
by `handle_exceptions`. -/
def exists_by_email (db : Db) (email : String) : Except AppError Bool :=
  handle_exceptions
    (if db.faulty then Except.error StorageFault.fault
     else
       Except.ok
         (decide (0 <
           (db.users.filter (fun u => lowerStr u.email == lowerStr email)).length)))

end UserRepository

namespace AuthService

/-- Embeds `AuthService.revoke_all_user_tokens` (`auth_service.py` lines 132-142):
calls `user_repository.update` with the one-entry dict
`{tokens_valid_from_utc: datetime.now(timezone.utc)}`. State threading uses
the same update core, on a fault-free session. -/
def revoke_all_user_tokens (s : SysState) (user : User) : User × SysState :=
  let fields := { FieldsToUpdate.empty with tokens_valid_from_utc := some (some s.now) }
  let updated := applyFields user fields
  let table := s.users.map (fun v => if v.id == user.id then updated else v)
  (updated, { s with users := table })

end AuthService

namespace UserService

/-- Embeds `UserService._check_authorization` (`user_service.py` lines 45-67):
raises `NotAuthorized` when `str(current_user.id) != str(target_user.id)`
(str on UUIDs is injective, so this is id inequality). -/
def check_authorization (current_user target_user : User) (action : String) :
    Except AppError Unit :=
  if current_user.id ≠ target_user.id then
    Except.error (AppError.notAuthorized
      ("You are not authorized to " ++ action ++ " this user."))
  else Except.ok ()

/-- Embeds `UserService._validate_user_deletion` (`user_service.py` lines 182-200):
raises `ValidationError` with the message "Users cannot delete their own
accounts" when `current_user.id != user_to_delete.id` — note the guard
fires on NON-self deletions, the opposite of what its message says. -/
def validate_user_deletion (user_to_delete current_user : User) :
    Except AppError Unit :=
  if current_user.id ≠ user_to_delete.id then
    Except.error (AppError.validationError "Users cannot delete their own accounts")
  else Except.ok ()

/-- Embeds `UserService.delete_user` (`user_service.py` lines 129-180): fetch the
target (ResourceNotFound when absent), authorization check, business-rule
validation, then hard delete. A repository error propagates unchanged. -/
def delete_user (db : Db) (user_id_to_delete : Nat) (current_user : User) :
    Except AppError Unit × Db :=
  match UserRepository.get db user_id_to_delete with
  | Except.error e => (Except.error e, db)
  | Except.ok none =>
    (Except.error (AppError.resourceNotFound
      ("User with id " ++ toString user_id_to_delete ++ " not Found")), db)
  | Except.ok (some user_to_delete) =>
    match check_authorization current_user user_to_delete "delete" with
    | Except.error e => (Except.error e, db)
    | Except.ok _ =>
      match validate_user_deletion user_to_delete current_user with
      | Except.error e => (Except.error e, db)
      | Except.ok _ =>
        match UserRepository.delete db user_id_to_delete with
        | Except.error e => (Except.error e, db)
        | Except.ok db2 => (Except.ok (), db2)

end UserService

/-! ## Helper lemmas -/

/-- A successful `verify_token` returns the token itself and certifies the
first four checks: valid signature, unexpired, expected type, and absence
from the revocation store. -/
theorem verify_ok_facts (s : SysState) (tok : Token) (et : TokenType) (p : Token)
    (h : TokenManager.verify_token s tok et = Except.ok p) :
    p = tok ∧ tok.wellSigned = true ∧ s.now < tok.expires_at ∧
      tok.type = et ∧ s.revoked.contains tok.token_id = false := by
  unfold TokenManager.verify_token at h
  split_ifs at h with h1 h2 h3 h4
  have hw : tok.wellSigned = true := by
    cases hb : tok.wellSigned
    · exact absurd hb h1
    · rfl
  have hexp : s.now < tok.expires_at := Nat.lt_of_not_le h2
  have hty : tok.type = et := not_not.mp h3
  have hrev : s.revoked.contains tok.token_id = false := by
    cases hb : s.revoked.contains tok.token_id
    · rfl
    · exact absurd hb h4
  refine ⟨?_, hw, hexp, hty, hrev⟩
  split at h
  · split at h
    · split at h
      · exact Except.noConfusion h
      · exact (Except.ok.inj h).symm
    · exact (Except.ok.inj h).symm
  · exact (Except.ok.inj h).symm

/-- A well-signed, unexpired token of the expected type whose id sits in
the revocation store fails verification with `TokenRevoked`. -/
theorem verify_revoked (s : SysState) (tok : Token) (et : TokenType)
    (hw : tok.wellSigned = true) (hexp : s.now < tok.expires_at)
    (hty : tok.type = et) (hrev : s.revoked.contains tok.token_id = true) :
    TokenManager.verify_token s tok et = Except.error AppError.tokenRevoked := by
  unfold TokenManager.verify_token
  rw [hw, hrev]
  simp [Nat.not_le.mpr hexp, hty]

/-- `create_token_pair` only consumes two token ids; the rest of the state
is untouched. -/
theorem create_token_pair_snd (s : SysState) (u : User) :
    (AuthService.create_token_pair s u).snd =
      { s with nextTokenId := s.nextTokenId + 2 } := rfl

/-- A successful refresh certifies: the presented token verified, its id
was appended to the revocation store, and clock and signature data are
unchanged in the resulting state. -/
theorem refresh_ok_facts (s s2 : SysState) (tok : Token) (tr : TokenResponse)
    (h : AuthService.refresh_token s tok = (Except.ok tr, s2)) :
    TokenManager.verify_token s tok TokenType.refresh = Except.ok tok ∧
      s2.revoked = tok.token_id :: s.revoked ∧ s2.now = s.now := by
  unfold AuthService.refresh_token at h
  cases hv : TokenManager.verify_token s tok TokenType.refresh with
  | error e => rw [hv] at h; exact Except.noConfusion (congrArg Prod.fst h)
  | ok p =>
    rw [hv] at h
    obtain ⟨hp, hw, _, _, _⟩ := verify_ok_facts s tok TokenType.refresh p hv
    subst hp
    cases hrw : s.revokeWriteOk with
    | false =>
      simp only [TokenManager.revoke_token, hw, hrw, Bool.false_eq_true,
        if_false, if_true, ite_false, ite_true] at h
      exact Except.noConfusion (congrArg Prod.fst h)
    | true =>
      simp only [TokenManager.revoke_token, hw, hrw, Bool.false_eq_true,
        Bool.true_eq_false, if_false, if_true, ite_false, ite_true] at h
      split at h
      · exact Except.noConfusion (congrArg Prod.fst h)
      · have hs2 := congrArg Prod.snd h
        simp only at hs2
        rw [create_token_pair_snd] at hs2
        subst hs2
        exact ⟨rfl, rfl, rfl⟩

/-- Erasing a client's counter leaves no entry for that client. -/
theorem counterOf_erase (cs : List (String × Nat)) (c : String) :
    counterOf (eraseCounter cs c) c = 0 := by
  unfold counterOf
  have hnone : (eraseCounter cs c).find? (fun p => p.fst == c) = none := by
    rw [List.find?_eq_none]
    intro a ha hpa
    have hf := List.of_mem_filter ha
    exact absurd (beq_iff_eq.mp hpa) (bne_iff_ne.mp hf)
  rw [hnone]

/-- Every successful login leaves the client's failed-attempt counter
erased, whichever hash-upgrade branch was taken. -/
theorem login_ok_counters (s s2 : SysState) (email password client : String)
    (tr : TokenResponse)
    (h : AuthService.login s email password client = (Except.ok tr, s2)) :
    s2.counters = eraseCounter s.counters client := by
  unfold AuthService.login at h
  split at h
  · exact Except.noConfusion (congrArg Prod.fst h)
  · split at h
    · exact Except.noConfusion (congrArg Prod.fst h)
    · split at h
      · exact Except.noConfusion (congrArg Prod.fst h)
      · split at h
        · simp only [] at h
          split at h
          · have hs2 := congrArg Prod.snd h
            simp only at hs2
            rw [create_token_pair_snd] at hs2
            subst hs2
            rfl
          · exact Except.noConfusion (congrArg Prod.fst h)
        · have hs2 := congrArg Prod.snd h
          simp only at hs2
          rw [create_token_pair_snd] at hs2
          subst hs2
          rfl

/-! ## Concrete witnesses data -/

/-- A stored user: id 1, email a@b.com, password "pw" at target cost. -/
def uW : User :=
  { id := 1, email := "a@b.com",
    hashed_password := { plain := "pw", cost := 12 },
    created_at := 0, updated_at := 0, tokens_valid_from_utc := none }

/-- A well-signed refresh token for user 1, unexpired at time 100. -/
def tokW : Token :=
  { subject := 1, type := TokenType.refresh, issued_at := 90,
    expires_at := 10170, token_id := 7, wellSigned := true }

/-- A healthy base state holding `uW`, with a working revocation store. -/
def sBase : SysState :=
  { users := [uW], revoked := [], counters := [], now := 100,
    nextTokenId := 50, revokeWriteOk := true, commitOk := true }

/-! ## Claim theorems -/

/-- C1: in `refresh_token`, when the revocation of the presented (verified)
refresh token cannot be confirmed, the flow raises `InternalServerError`
and the state is unchanged — in particular no new tokens are created. -/
theorem C1_refresh_fails_closed_when_revocation_unconfirmed
    (s : SysState) (tok : Token) (p : Token)
    (hv : TokenManager.verify_token s tok TokenType.refresh = Except.ok p)
    (hrw : s.revokeWriteOk = false) :
    AuthService.refresh_token s tok =
      (Except.error (AppError.internalServerError
        "Could not refresh token. Please try logging in again."), s) := by
  obtain ⟨hp, hw, _, _, _⟩ := verify_ok_facts s tok TokenType.refresh p hv
  subst hp
  unfold AuthService.refresh_token
  rw [hv]
  simp [TokenManager.revoke_token, hw, hrw]

/-- C1 witness: the theorem applied to the base state with revocation
writes failing. -/
theorem C1_witness :
    AuthService.refresh_token { sBase with revokeWriteOk := false } tokW =
      (Except.error (AppError.internalServerError
        "Could not refresh token. Please try logging in again."),
       { sBase with revokeWriteOk := false }) :=
  C1_refresh_fails_closed_when_revocation_unconfirmed
    { sBase with revokeWriteOk := false } tokW tokW rfl rfl

/-- C2: a refresh token is one-time use — after a `refresh_token` call
accepts it, its token id sits in the revocation store, `verify_token`
rejects it with `TokenRevoked`, and a second `refresh_token` call with the
same token fails `TokenRevoked`. -/
theorem C2_refresh_token_one_time_use
    (s s2 : SysState) (tok : Token) (tr : TokenResponse)
    (h : AuthService.refresh_token s tok = (Except.ok tr, s2)) :
    s2.revoked.contains tok.token_id = true ∧
    TokenManager.verify_token s2 tok TokenType.refresh =
      Except.error AppError.tokenRevoked ∧
    AuthService.refresh_token s2 tok =
      (Except.error AppError.tokenRevoked, s2) := by
  obtain ⟨hv, hrev, hnow⟩ := refresh_ok_facts s s2 tok tr h
  obtain ⟨_, hw, hexp, hty, _⟩ := verify_ok_facts s tok TokenType.refresh tok hv
  have hcont : s2.revoked.contains tok.token_id = true := by
    rw [hrev]
    simp
  have hexp2 : s2.now < tok.expires_at := by rw [hnow]; exact hexp
  have hv2 := verify_revoked s2 tok TokenType.refresh hw hexp2 hty hcont
  refine ⟨hcont, hv2, ?_⟩
  unfold AuthService.refresh_token
  rw [hv2]

/-- The state after the first (successful) refresh of `tokW` from `sBase`:
token id 7 revoked, two fresh token ids consumed. -/
def sAfterRefresh : SysState :=
  { users := [uW], revoked := [7], counters := [], now := 100,
    nextTokenId := 52, revokeWriteOk := true, commitOk := true }

/-- The token pair issued by the first refresh of `tokW` from `sBase`. -/
def trAfterRefresh : TokenResponse :=
  { access_token :=
      { subject := 1, type := TokenType.access, issued_at := 100,
        expires_at := 115, token_id := 50, wellSigned := true },
    refresh_token :=
      { subject := 1, type := TokenType.refresh, issued_at := 100,
        expires_at := 10180, token_id := 51, wellSigned := true } }

/-- C2 witness: the theorem applied to the concrete first refresh of `tokW`
from `sBase`. -/
theorem C2_witness :
    sAfterRefresh.revoked.contains tokW.token_id = true ∧
    TokenManager.verify_token sAfterRefresh tokW TokenType.refresh =
      Except.error AppError.tokenRevoked ∧
    AuthService.refresh_token sAfterRefresh tokW =
      (Except.error AppError.tokenRevoked, sAfterRefresh) :=
  C2_refresh_token_one_time_use sBase sAfterRefresh tokW trAfterRefresh rfl

/-- A well-signed, unexpired refresh token whose subject (7) has no user
record. -/
def tokGhost : Token :=
  { subject := 7, type := TokenType.refresh, issued_at := 90,
    expires_at := 10170, token_id := 3, wellSigned := true }

/-- A state with an empty user table (the account was deleted after the
token was issued). -/
def sGhost : SysState :=
  { users := [], revoked := [], counters := [], now := 100,
    nextTokenId := 50, revokeWriteOk := true, commitOk := true }

/-- C3 (code bug): the presented refresh token verifies and its subject has
no user record, yet `refresh_token` does not fail with a
`ResourceNotFound`-equivalent error — the source never checks the lookup
result, so after revoking the old token it evaluates `str(user.id)` on
`None` and a raw `AttributeError` escapes (the old token is even revoked
first, so the failing call still burns it). -/
theorem C3_refresh_missing_user_raises_raw_attribute_error :
    TokenManager.verify_token sGhost tokGhost TokenType.refresh =
      Except.ok tokGhost ∧
    findById sGhost.users tokGhost.subject = none ∧
    AuthService.refresh_token sGhost tokGhost =
      (Except.error AppError.attributeErrorNoneHasNoId,
       { sGhost with revoked := [3] }) :=
  ⟨rfl, rfl, rfl⟩

/-- The base state with client 1.2.3.4 already at the lockout threshold. -/
def sLocked : SysState := { sBase with counters := [("1.2.3.4", 5)] }

/-- C4 counterexample: a rate-limited login and a wrong-password login both
raise `InvalidCredentials`, but with different detail messages, so the
caller CAN distinguish a lockout from bad credentials — refuting the claim
that the two carry the same generic message. -/
theorem C4_counterexample_lockout_message_is_distinguishable :
    (AuthService.login sLocked "a@b.com" "pw" "1.2.3.4").fst =
      Except.error (AppError.invalidCredentials
        "Too many failed login attempts. Please try again later.") ∧
    (AuthService.login sBase "a@b.com" "wrong" "1.2.3.4").fst =
      Except.error (AppError.invalidCredentials INVALID_CREDENTIALS_DETAIL) ∧
    "Too many failed login attempts. Please try again later." ≠
      INVALID_CREDENTIALS_DETAIL :=
  ⟨rfl, rfl, by decide⟩

/-- C4 (amended): for every rate-limited client identifier, login fails
with `InvalidCredentials` — the same exception type as a wrong-password
failure — but carrying the distinct detail message "Too many failed login
attempts. Please try again later.", and the state is unchanged. -/
theorem C4_rate_limited_login_fails_invalid_credentials
    (s : SysState) (email password client : String)
    (h : RateLimitService.is_auth_rate_limited s client = true) :
    AuthService.login s email password client =
      (Except.error (AppError.invalidCredentials
        "Too many failed login attempts. Please try again later."), s) := by
  simp [AuthService.login, h]

/-- C4 witness: the amended theorem applied to the locked concrete state. -/
theorem C4_witness :
    AuthService.login sLocked "a@b.com" "pw" "1.2.3.4" =
      (Except.error (AppError.invalidCredentials
        "Too many failed login attempts. Please try again later."), sLocked) :=
  C4_rate_limited_login_fails_invalid_credentials sLocked "a@b.com" "pw"
    "1.2.3.4" rfl

/-- C5: when the client is not rate-limited, a login with an unknown email
and a login with a known email but wrong password produce the very same
outcome: one recorded failed attempt for the client and the same default
`InvalidCredentials` error. -/
theorem C5_unknown_user_and_wrong_password_treated_identically
    (s : SysState) (email1 password1 email2 password2 client : String)
    (u : User)
    (hrl : RateLimitService.is_auth_rate_limited s client = false)
    (h1 : findByEmail s.users email1 = none)
    (h2 : findByEmail s.users email2 = some u)
    (h3 : PasswordManager.verify_password password2 u.hashed_password = false) :
    AuthService.login s email1 password1 client =
      (Except.error (AppError.invalidCredentials INVALID_CREDENTIALS_DETAIL),
       RateLimitService.record_failed_auth_attempt s client) ∧
    AuthService.login s email2 password2 client =
      AuthService.login s email1 password1 client := by
  constructor
  · simp [AuthService.login, hrl, h1]
  · simp [AuthService.login, hrl, h1, h2, h3]

/-- C5 witness: unknown email x@y.com and wrong password for a@b.com from
the base state yield the identical failure. -/
theorem C5_witness :
    AuthService.login sBase "x@y.com" "whatever" "1.2.3.4" =
      (Except.error (AppError.invalidCredentials INVALID_CREDENTIALS_DETAIL),
       RateLimitService.record_failed_auth_attempt sBase "1.2.3.4") ∧
    AuthService.login sBase "a@b.com" "wrong" "1.2.3.4" =
      AuthService.login sBase "x@y.com" "whatever" "1.2.3.4" :=
  C5_unknown_user_and_wrong_password_treated_identically sBase "x@y.com"
    "whatever" "a@b.com" "wrong" "1.2.3.4" uW rfl rfl rfl rfl

/-- The stored user with a hash whose cost 4 is below the target 12. -/
def uWeakHash : User :=
  { id := 1, email := "a@b.com",
    hashed_password := { plain := "pw", cost := 4 },
    created_at := 0, updated_at := 0, tokens_valid_from_utc := none }

/-- A state holding `uWeakHash` in which the `db.commit()` persisting the
upgraded hash fails. -/
def sCommitFail : SysState :=
  { users := [uWeakHash], revoked := [], counters := [], now := 100,
    nextTokenId := 50, revokeWriteOk := true, commitOk := false }

/-- C6 (code bug): a correct-password login that triggers a hash upgrade
fails outright when persisting the recomputed hash fails — the
`db.commit()` at `auth_service.py` line 83 has no exception handler, so the
storage fault propagates raw and the caller receives no token pair,
violating the best-effort requirement. -/
theorem C6_hash_upgrade_persist_failure_fails_login :
    PasswordManager.verify_password "pw" uWeakHash.hashed_password = true ∧
    PasswordManager.upgrade_hash_if_needed "pw" uWeakHash.hashed_password = true ∧
    AuthService.login sCommitFail "a@b.com" "pw" "1.2.3.4" =
      (Except.error AppError.rawStorageFault,
       RateLimitService.clear_failed_auth_attempts sCommitFail "1.2.3.4") :=
  ⟨rfl, by decide, rfl⟩

/-- C7: a successful login leaves the client's failed-attempt counter at
zero, so the very next attempt from that client is not rate-limited,
whatever the prior failure count was. -/
theorem C7_successful_login_clears_rate_limit
    (s s2 : SysState) (email password client : String) (tr : TokenResponse)
    (h : AuthService.login s email password client = (Except.ok tr, s2)) :
    counterOf s2.counters client = 0 ∧
    RateLimitService.is_auth_rate_limited s2 client = false := by
  have hc := login_ok_counters s s2 email password client tr h
  have h0 : counterOf s2.counters client = 0 := by
    rw [hc]
    exact counterOf_erase s.counters client
  refine ⟨h0, ?_⟩
  unfold RateLimitService.is_auth_rate_limited
  rw [h0]
  rfl

/-- The base state with three failed attempts already recorded for the
client — below the threshold of five. -/
def sPriorFailures : SysState := { sBase with counters := [("1.2.3.4", 3)] }

/-- The token pair issued by the successful login from `sPriorFailures`. -/
def trLoginW : TokenResponse :=
  { access_token :=
      { subject := 1, type := TokenType.access, issued_at := 100,
        expires_at := 115, token_id := 50, wellSigned := true },
    refresh_token :=
      { subject := 1, type := TokenType.refresh, issued_at := 100,
        expires_at := 10180, token_id := 51, wellSigned := true } }

/-- C7 witness: a concrete successful login after three prior failures
clears the counter and lifts the rate limit. -/
theorem C7_witness :
    counterOf ({ sBase with nextTokenId := 52 } : SysState).counters
      "1.2.3.4" = 0 ∧
    RateLimitService.is_auth_rate_limited { sBase with nextTokenId := 52 }
      "1.2.3.4" = false :=
  C7_successful_login_clears_rate_limit sPriorFailures
    { sBase with nextTokenId := 52 } "a@b.com" "pw" "1.2.3.4" trLoginW
    (by rfl)

/-- C8: `revoke_all_user_tokens` sets `tokens_valid_from_utc` on the user
record to the current instant and changes no other field — id, email,
hashed_password and both timestamps come through untouched, for every
state and user. -/
theorem C8_revoke_all_user_tokens_updates_only_timestamp
    (s : SysState) (u : User) :
    (AuthService.revoke_all_user_tokens s u).fst.tokens_valid_from_utc =
      some s.now ∧
    (AuthService.revoke_all_user_tokens s u).fst.id = u.id ∧
    (AuthService.revoke_all_user_tokens s u).fst.email = u.email ∧
    (AuthService.revoke_all_user_tokens s u).fst.hashed_password =
      u.hashed_password ∧
    (AuthService.revoke_all_user_tokens s u).fst.created_at = u.created_at ∧
    (AuthService.revoke_all_user_tokens s u).fst.updated_at = u.updated_at :=
  ⟨rfl, rfl, rfl, rfl, rfl, rfl⟩

/-- Holds when a repository call either succeeded or failed with exactly
the single generic wrapped error — never a raw storage exception, never
any other error kind. -/
def surfacesOnlyGenericError {α : Type} : Except AppError α → Bool
  | Except.ok _ => true
  | Except.error (AppError.internalServerError d) =>
    d == "An unexpected database error occurred."
  | Except.error _ => false

/-- C9: every `UserRepository` operation — get, get_by_email, count,
create, update, delete, exists, exists_by_email — surfaces an underlying
storage fault as the single generic `InternalServerError`, for every
database state and input. -/
theorem C9_repository_operations_wrap_storage_faults
    (db : Db) (obj_id : Nat) (email : String) (u : User)
    (f : FieldsToUpdate) (filters : Option UserFilters) :
    surfacesOnlyGenericError (UserRepository.get db obj_id) = true ∧
    surfacesOnlyGenericError (UserRepository.get_by_email db email) = true ∧
    surfacesOnlyGenericError (UserRepository.count db filters) = true ∧
    surfacesOnlyGenericError (UserRepository.create db u) = true ∧
    surfacesOnlyGenericError (UserRepository.update db u f) = true ∧
    surfacesOnlyGenericError (UserRepository.delete db obj_id) = true ∧
    surfacesOnlyGenericError (UserRepository.existsById db obj_id) = true ∧
    surfacesOnlyGenericError (UserRepository.exists_by_email db email) = true := by
  cases hf : db.faulty <;>
    simp [UserRepository.get, UserRepository.get_by_email, UserRepository.count,
      UserRepository.create, UserRepository.update, UserRepository.delete,
      UserRepository.existsById, UserRepository.exists_by_email,
      handle_exceptions, surfacesOnlyGenericError, hf]

/-- C10: `delete_user` permits only self-deletion. When the current user's
id differs from the (existing) target id the call fails `NotAuthorized`
and nothing is deleted; when the ids coincide the deletion proceeds — the
later `_validate_user_deletion` guard, whose message claims to forbid
self-deletion, never fires on a self-deletion. -/
theorem C10_delete_user_permits_only_self_deletion
    (db : Db) (current_user : User) (target_id : Nat) (u : User)
    (hf : db.faulty = false)
    (hu : findById db.users target_id = some u) :
    (current_user.id ≠ target_id →
      UserService.delete_user db target_id current_user =
        (Except.error (AppError.notAuthorized
          "You are not authorized to delete this user."), db)) ∧
    (current_user.id = target_id →
      UserService.delete_user db target_id current_user =
        (Except.ok (),
         { db with users := db.users.filter (fun v => v.id != target_id) })) := by
  have huid : u.id = target_id := by
    have hu2 : db.users.find? (fun v => v.id == target_id) = some u := hu
    have hb := List.find?_some hu2
    exact beq_iff_eq.mp hb
  have hget : UserRepository.get db target_id = Except.ok (some u) := by
    unfold UserRepository.get handle_exceptions
    rw [hf]
    simp only [Bool.false_eq_true, if_false, ite_false]
    rw [show findById db.users target_id = some u from hu]
  constructor
  · intro hne
    have hca : UserService.check_authorization current_user u "delete" =
        Except.error (AppError.notAuthorized
          "You are not authorized to delete this user.") := by
      unfold UserService.check_authorization
      rw [huid, if_pos hne]
      rfl
    unfold UserService.delete_user
    simp only [hget, hca]
  · intro heq
    have hca : UserService.check_authorization current_user u "delete" =
        Except.ok () := by
      unfold UserService.check_authorization
      rw [huid, if_neg (fun hcon => hcon heq)]
    have hvd : UserService.validate_user_deletion u current_user =
        Except.ok () := by
      unfold UserService.validate_user_deletion
      rw [huid, if_neg (fun hcon => hcon heq)]
    have hdel : UserRepository.delete db target_id =
        Except.ok
          { db with users := db.users.filter (fun v => v.id != target_id) } := by
      unfold UserRepository.delete handle_exceptions
      rw [hf]
      simp only [Bool.false_eq_true, if_false, ite_false]
    unfold UserService.delete_user
    simp only [hget, hca, hvd, hdel]

/-- A second stored user, distinct from `uW`. -/
def uOther : User :=
  { id := 2, email := "c@d.com",
    hashed_password := { plain := "zz", cost := 12 },
    created_at := 0, updated_at := 0, tokens_valid_from_utc := none }

/-- A healthy database holding only `uW`. -/
def dbW : Db := { users := [uW], faulty := false }

/-- C10 witness: user 2 cannot delete user 1 (`NotAuthorized`, nothing
deleted); user 1 deleting user 1 succeeds and removes the record. -/
theorem C10_witness :
    UserService.delete_user dbW 1 uOther =
      (Except.error (AppError.notAuthorized
        "You are not authorized to delete this user."), dbW) ∧
    UserService.delete_user dbW 1 uW =
      (Except.ok (), { dbW with users := [] }) := by
  constructor
  · exact (C10_delete_user_permits_only_self_deletion dbW uOther 1 uW rfl
      rfl).left (by decide)
  · have h := (C10_delete_user_permits_only_self_deletion dbW uW 1 uW rfl
      rfl).right rfl
    exact h

end HackathonAuth
